import Mathlib

/-!
Shallow embedding of `src/python/research-service/main.py` (quant-dashboard).

The service exposes three handlers:

* `POST /compute` — builds the list of `close` fields of the submitted
  candles, then constructs a `ComputeResponse` from `len(closes)`,
  `closes[-1]` and `sum(closes) / len(closes)`.  Python evaluates the
  keyword arguments left to right, so on an empty list the negative
  index raises `IndexError` before the division is attempted; the
  embedding returns an `Except` mirroring those two fault points in
  evaluation order.
* `GET /health` — returns the constant body `{"status": "ok"}` with the
  framework-default HTTP status 200.
* `GET /meta` — module-level state `VERSION = os.getenv("SERVICE_VERSION",
  "dev")` and `START_TIME = time.time()` is initialised once at process
  start; the handler reports `round(time.time() - START_TIME, 2)` and the
  stored version.

Python floats are modelled as exact rationals (`ℚ`); Python's builtin
`round` uses round-half-to-even, modelled by `roundHalfEven`.
-/

namespace ResearchService

/-- The `Candle` pydantic model: one OHLCV bar. -/
structure Candle where
  time : Int
  «open» : ℚ
  high : ℚ
  low : ℚ
  close : ℚ
  volume : ℚ
deriving DecidableEq, Repr

/-- The `ComputeRequest` pydantic model: an ordered list of candles. -/
structure ComputeRequest where
  candles : List Candle
deriving DecidableEq, Repr

/-- The `ComputeResponse` pydantic model. -/
structure ComputeResponse where
  count : Nat
  last_close : ℚ
  average_close : ℚ
deriving DecidableEq, Repr

/-- The runtime faults the `/compute` handler body can raise:
`IndexError` from `closes[-1]` and `ZeroDivisionError` from
`sum(closes) / len(closes)`. -/
inductive ComputeError where
  | indexOutOfRange
  | divisionByZero
deriving DecidableEq, Repr

/-- Python's builtin `sum`: a left fold starting at `0`. -/
def pySum (l : List ℚ) : ℚ := l.foldl (· + ·) 0

/-- The `/compute` handler.  `closes = [c.close for c in req.candles]`;
the `ComputeResponse` keyword arguments are evaluated left to right:
`count=len(closes)` is total, `last_close=closes[-1]` raises `IndexError`
on an empty list, and `average_close=sum(closes)/len(cles := closes)`
would raise `ZeroDivisionError` (the walrus `cles := closes` is a mere
alias for `closes`). -/
def compute (req : ComputeRequest) : Except ComputeError ComputeResponse :=
  let closes := req.candles.map (fun c => c.close)
  let count := closes.length
  match closes.getLast? with
  | none => .error .indexOutOfRange
  | some last =>
    if count = 0 then .error .divisionByZero
    else .ok { count := count, last_close := last,
               average_close := pySum closes / (count : ℚ) }

/-- An HTTP response: status code plus a flat JSON object body. -/
structure HttpResponse where
  status : Nat
  body : List (String × String)
deriving DecidableEq, Repr

/-- The `/health` handler: returns `{"status": "ok"}`; FastAPI serves it
with the default status code 200. -/
def health : HttpResponse :=
  { status := 200, body := [("status", "ok")] }

/-- The process environment, as a map from variable names to values. -/
structure Env where
  vars : String → Option String

/-- `VERSION = os.getenv("SERVICE_VERSION", "dev")`, evaluated once at
module import. -/
def VERSION (env : Env) : String :=
  (env.vars "SERVICE_VERSION").getD "dev"

/-- The module-level state set at process start: `VERSION` and
`START_TIME = time.time()`. -/
structure ProcessState where
  version : String
  startTime : ℚ

/-- Initialise the module-level state from the environment and the
wall-clock reading at import time. -/
def startProcess (env : Env) (t0 : ℚ) : ProcessState :=
  { version := VERSION env, startTime := t0 }

/-- Python's `round` to an integer: round half to even. -/
def roundHalfEven (q : ℚ) : ℤ :=
  if q - ⌊q⌋ < 1/2 then ⌊q⌋
  else if 1/2 < q - ⌊q⌋ then ⌊q⌋ + 1
  else if Even ⌊q⌋ then ⌊q⌋ else ⌊q⌋ + 1

/-- Python's `round(q, 2)`: round to two decimal places, half to even. -/
def pyRound2 (q : ℚ) : ℚ :=
  (roundHalfEven (100 * q) : ℚ) / 100

/-- The body returned by the `/meta` handler. -/
structure MetaResponse where
  service : String
  status : String
  uptime_seconds : ℚ
  version : String
deriving DecidableEq, Repr

/-- The `/meta` handler, reading the process state and the current
wall-clock time `now = time.time()`. -/
def meta (st : ProcessState) (now : ℚ) : MetaResponse :=
  { service := "research-service"
    status := "ok"
    uptime_seconds := pyRound2 (now - st.startTime)
    version := st.version }

/-- Discriminator for the `ZeroDivisionError` fault of `/compute`. -/
def isDivisionByZeroFault : Except ComputeError ComputeResponse → Bool
  | .error .divisionByZero => true
  | _ => false

/-- Sample candle builder used by concrete witnesses. -/
def mkCandle (t : Int) (o h l c v : ℚ) : Candle :=
  { time := t, «open» := o, high := h, low := l, close := c, volume := v }

/-- A sample three-candle request with closes `[10, 20, 30]`. -/
def sampleReq : ComputeRequest :=
  { candles := [mkCandle 1 1 11 1 10 5, mkCandle 2 2 22 2 20 6, mkCandle 3 3 33 3 30 7] }

/-- An environment with `SERVICE_VERSION` set to `"1.2.3"`. -/
def envSet : Env :=
  { vars := fun s => if s = "SERVICE_VERSION" then some "1.2.3" else none }

/-- An environment with no variables set. -/
def envUnset : Env := { vars := fun _ => none }

lemma pySum_eq_sum (l : List ℚ) : pySum l = l.sum := by
  rw [pySum, List.sum_eq_foldl]

lemma compute_eq_ok (req : ComputeRequest) (h : req.candles ≠ []) :
    compute req = .ok
      { count := req.candles.length
        last_close := (req.candles.getLast h).close
        average_close :=
          pySum (req.candles.map (fun c => c.close)) / (req.candles.length : ℚ) } := by
  have hm : req.candles.map (fun c => c.close) ≠ [] := by
    simpa using h
  have hl : ¬ req.candles.length = 0 := by
    simpa [List.length_eq_zero] using h
  simp [compute, List.getLast?_eq_getLast _ hm, hl, List.getLast_map]

/-- C1: for every non-empty candle sequence given to the `/compute`
handler, the returned `average_close` equals the sum of all `close`
values of the input candles divided by the count of candles (the
arithmetic mean in forward summation order). -/
theorem compute_average_close_is_mean (req : ComputeRequest) (h : req.candles ≠ []) :
    ∃ resp, compute req = .ok resp ∧
      resp.average_close =
        (req.candles.map (fun c => c.close)).sum / (req.candles.length : ℚ) := by
  exact ⟨_, compute_eq_ok req h, by simp [pySum_eq_sum]⟩

/-- Witness for C1 on a concrete request with closes `[10, 20, 30]`. -/
theorem compute_average_close_is_mean_witness :
    ∃ resp, compute sampleReq = .ok resp ∧
      resp.average_close =
        (sampleReq.candles.map (fun c => c.close)).sum / (sampleReq.candles.length : ℚ) :=
  compute_average_close_is_mean sampleReq (by decide)

/-- C2: for every non-empty candle sequence given to the `/compute`
handler, the returned `last_close` equals the `close` field of the final
element in input order. -/
theorem compute_last_close_is_final (req : ComputeRequest) (h : req.candles ≠ []) :
    ∃ resp, compute req = .ok resp ∧
      resp.last_close = (req.candles.getLast h).close :=
  ⟨_, compute_eq_ok req h, rfl⟩

/-- Witness for C2 on a concrete request with closes `[10, 20, 30]`. -/
theorem compute_last_close_is_final_witness :
    ∃ resp, compute sampleReq = .ok resp ∧
      resp.last_close = (sampleReq.candles.getLast (by decide)).close :=
  compute_last_close_is_final sampleReq (by decide)

/-- C3: for every non-empty candle sequence given to the `/compute`
handler, the returned `count` equals the number of elements of the input
sequence. -/
theorem compute_count_is_length (req : ComputeRequest) (h : req.candles ≠ []) :
    ∃ resp, compute req = .ok resp ∧ resp.count = req.candles.length :=
  ⟨_, compute_eq_ok req h, rfl⟩

/-- Witness for C3 on a concrete request with three candles. -/
theorem compute_count_is_length_witness :
    ∃ resp, compute sampleReq = .ok resp ∧ resp.count = sampleReq.candles.length :=
  compute_count_is_length sampleReq (by decide)

/-- C4: on the empty candle sequence the `/compute` handler raises a
runtime fault instead of returning a `ComputeResponse`. -/
theorem compute_empty_input_faults :
    ∃ e, compute { candles := [] } = Except.error e :=
  ⟨ComputeError.indexOutOfRange, rfl⟩

/-- C5: appending one candle whose `close` equals the `average_close`
computed from a non-empty sequence leaves `average_close` unchanged. -/
theorem compute_mean_invariant_append (req : ComputeRequest) (resp : ComputeResponse)
    (c : Candle) (h : compute req = .ok resp) (hc : c.close = resp.average_close) :
    ∃ resp2, compute { candles := req.candles ++ [c] } = .ok resp2 ∧
      resp2.average_close = resp.average_close := by
  have hne : req.candles ≠ [] := by
    intro hnil
    rw [show req = { candles := [] } from by cases req; simp_all] at h
    simp [compute] at h
  have hok := compute_eq_ok req hne
  rw [h] at hok
  have hresp := (Except.ok.injEq _ _).mp hok.symm
  have hne2 : (req.candles ++ [c] : List Candle) ≠ [] := by simp
  refine ⟨_, compute_eq_ok { candles := req.candles ++ [c] } hne2, ?_⟩
  have hn : (req.candles.length : ℚ) ≠ 0 := by
    have : req.candles.length ≠ 0 := by simpa [List.length_eq_zero] using hne
    exact_mod_cast this
  have hn1 : ((req.candles.length : ℚ) + 1) ≠ 0 := by positivity
  subst hresp
  have hcc : c.close = (List.map (fun c => c.close) req.candles).sum / (req.candles.length : ℚ) := by
    rw [hc]; simp [pySum_eq_sum]
  simp only [List.map_append, List.map_cons, List.map_nil, pySum_eq_sum,
    List.sum_append, List.sum_cons, List.sum_nil, List.length_append,
    List.length_cons, List.length_nil, Nat.cast_add, Nat.cast_one, add_zero]
  rw [hcc]
  field_simp
  ring

/-- Witness for C5: closes `[10, 20, 30]` have mean `20`; appending a
candle closing at `20` keeps the mean at `20`. -/
theorem compute_mean_invariant_append_witness :
    ∃ resp2, compute { candles := sampleReq.candles ++ [mkCandle 4 4 44 4 20 8] } = .ok resp2 ∧
      resp2.average_close = 20 := by
  obtain ⟨r2, hr2, havg⟩ :=
    compute_mean_invariant_append sampleReq
      { count := 3, last_close := 30, average_close := 20 }
      (mkCandle 4 4 44 4 20 8)
      (by rw [compute_eq_ok sampleReq (by decide)]
          norm_num [sampleReq, mkCandle, pySum])
      (by norm_num [mkCandle])
  exact ⟨r2, hr2, havg⟩

/-- C6: the `/compute` response depends only on the `close` fields: two
requests of equal length whose candles agree pairwise on `close` (but may
differ in `time`, `open`, `high`, `low`, `volume`) get identical
responses. -/
theorem compute_depends_only_on_closes (l1 l2 : List Candle)
    (hlen : l1.length = l2.length)
    (hclose : ∀ i (h1 : i < l1.length) (h2 : i < l2.length),
      (l1.get ⟨i, h1⟩).close = (l2.get ⟨i, h2⟩).close) :
    compute { candles := l1 } = compute { candles := l2 } := by
  have hmap : l1.map (fun c => c.close) = l2.map (fun c => c.close) := by
    apply List.ext_get (by simpa using hlen)
    intro n h1 h2
    simp only [List.get_map]
    exact hclose n (by simpa using h1) (by simpa using h2)
  simp [compute, hmap]

/-- Witness for C6: two two-candle lists sharing closes `[10, 20]` but
differing in every other field produce the same response. -/
theorem compute_depends_only_on_closes_witness :
    compute { candles := [mkCandle 1 1 11 1 10 5, mkCandle 2 2 22 2 20 6] } =
      compute { candles := [mkCandle 9 7 77 3 10 50, mkCandle 8 6 66 4 20 60] } :=
  compute_depends_only_on_closes _ _ (by decide) (by decide)

/-- C7: the `/health` handler always returns the body
`{"status": "ok"}` with HTTP status 200. -/
theorem health_always_ok :
    health.status = 200 ∧ health.body = [("status", "ok")] :=
  ⟨rfl, rfl⟩

/-- C8: the `version` field of every `/meta` response equals the
`SERVICE_VERSION` environment variable read at process start when set,
and `"dev"` otherwise, and never changes for the lifetime of the
process. -/
theorem meta_version_from_env (env : Env) (t0 t1 t2 : ℚ) :
    (∀ v, env.vars "SERVICE_VERSION" = some v →
        (meta (startProcess env t0) t1).version = v) ∧
    (env.vars "SERVICE_VERSION" = none →
        (meta (startProcess env t0) t1).version = "dev") ∧
    (meta (startProcess env t0) t1).version =
      (meta (startProcess env t0) t2).version := by
  refine ⟨?_, ?_, rfl⟩
  · intro v hv
    simp [meta, startProcess, VERSION, hv]
  · intro hv
    simp [meta, startProcess, VERSION, hv]

/-- Witness for C8: with `SERVICE_VERSION=1.2.3` the reported version is
`"1.2.3"`; with the variable unset it is `"dev"`. -/
theorem meta_version_from_env_witness :
    (meta (startProcess envSet 0) 1).version = "1.2.3" ∧
    (meta (startProcess envUnset 0) 1).version = "dev" :=
  ⟨(meta_version_from_env envSet 0 1 2).1 "1.2.3" (by simp [envSet]),
   (meta_version_from_env envUnset 0 1 2).2.1 rfl⟩

lemma roundHalfEven_le_roundHalfEven {a b : ℚ} (h : a ≤ b) :
    roundHalfEven a ≤ roundHalfEven b := by
  have hf : ⌊a⌋ ≤ ⌊b⌋ := Int.floor_le_floor h
  rcases lt_or_eq_of_le hf with hlt | heq
  · unfold roundHalfEven
    split_ifs <;> omega
  · have hfr : a - (⌊a⌋ : ℚ) ≤ b - (⌊b⌋ : ℚ) := by
      rw [← heq]
      exact sub_le_sub_right h _
    unfold roundHalfEven
    rw [← heq]
    split_ifs <;> first | omega | linarith

lemma roundHalfEven_nonneg {q : ℚ} (h : 0 ≤ q) : 0 ≤ roundHalfEven q := by
  have h0 : (0 : ℤ) ≤ ⌊q⌋ := by
    have := Int.floor_le_floor h
    simpa using this
  unfold roundHalfEven
  split_ifs <;> omega

lemma pyRound2_nonneg {q : ℚ} (h : 0 ≤ q) : 0 ≤ pyRound2 q := by
  unfold pyRound2
  have hr : (0 : ℚ) ≤ (roundHalfEven (100 * q) : ℚ) := by
    exact_mod_cast roundHalfEven_nonneg (by linarith)
  positivity

lemma pyRound2_mono {a b : ℚ} (h : a ≤ b) : pyRound2 a ≤ pyRound2 b := by
  unfold pyRound2
  have hr : (roundHalfEven (100 * a) : ℚ) ≤ (roundHalfEven (100 * b) : ℚ) := by
    exact_mod_cast roundHalfEven_le_roundHalfEven (by linarith : 100 * a ≤ 100 * b)
  linarith

/-- C9: `uptime_seconds` reported by `/meta` is non-negative, and across
two invocations at wall-clock times `t1 ≤ t2` after process start `t0`
the later value is greater than or equal to the earlier one. -/
theorem meta_uptime_nonneg_monotone (env : Env) (t0 t1 t2 : ℚ)
    (h01 : t0 ≤ t1) (h12 : t1 ≤ t2) :
    0 ≤ (meta (startProcess env t0) t1).uptime_seconds ∧
    (meta (startProcess env t0) t1).uptime_seconds ≤
      (meta (startProcess env t0) t2).uptime_seconds := by
  constructor
  · exact pyRound2_nonneg (by simp [startProcess]; linarith)
  · exact pyRound2_mono (by simp [startProcess]; linarith)

/-- Witness for C9 at start time 0 and call times 1 and 2. -/
theorem meta_uptime_nonneg_monotone_witness :
    0 ≤ (meta (startProcess envUnset 0) 1).uptime_seconds ∧
    (meta (startProcess envUnset 0) 1).uptime_seconds ≤
      (meta (startProcess envUnset 0) 2).uptime_seconds :=
  meta_uptime_nonneg_monotone envUnset 0 1 2 (by norm_num) (by norm_num)

/-- C10: on an empty candle sequence the `/compute` handler fails with
the index-out-of-range fault from `closes[-1]`, evaluated before the
average; the division-by-zero fault is not what is raised. -/
theorem compute_empty_fault_is_index_error (req : ComputeRequest)
    (h : req.candles = []) :
    compute req = .error .indexOutOfRange ∧
      isDivisionByZeroFault (compute req) = false := by
  obtain ⟨l⟩ := req
  cases h
  exact ⟨rfl, rfl⟩

/-- Witness for C10 at the empty request. -/
theorem compute_empty_fault_is_index_error_witness :
    compute { candles := [] } = .error .indexOutOfRange ∧
      isDivisionByZeroFault (compute { candles := [] }) = false :=
  compute_empty_fault_is_index_error { candles := [] } rfl

end ResearchService
